import Mathlib

/-!
Shallow embedding of the pytest-tzshift plugin
(src/pytest_tzshift/plugin.py and src/pytest_tzshift/_types.py).

Host-dependent effects are abstracted by two boolean oracles: a timezone
database membership test (ZoneInfo lookup succeeding) and a locale
availability test (setlocale accepting the value).  The process-wide locale
setting is modelled as an explicit string state threaded through the
functions that touch it; the TZ environment variable is an Option String
(none meaning absent).  Warnings are modelled as the list of message strings
emitted, in order.
-/

def SYSTEM_TZ : String := "SYSTEM"

def SYSTEM_LOCALE : String := "SYSTEM"

/-- Python str.strip on the character list: drop whitespace from both
ends. -/
def stripData (l : List Char) : List Char :=
  ((l.dropWhile Char.isWhitespace).reverse.dropWhile Char.isWhitespace).reverse

/-- Python str.strip of a string. -/
def pyStrip (s : String) : String := String.mk (stripData s.data)

/-- Python str.upper of a string (ASCII letters, which is all the source
ever compares). -/
def pyUpper (s : String) : String := String.mk (s.data.map Char.toUpper)

/-- Model of the sentinel test in plugin.py: true iff the value is present
and, after stripping surrounding whitespace, is empty or upper-cases to the
sentinel. -/
def is_system_sentinel (val : Option String) (sentinel : String) : Bool :=
  match val with
  | none => false
  | some v =>
    let stripped := pyStrip v
    stripped == "" || pyUpper stripped == sentinel

/-- Little-endian decimal digits of n, with fuel for structural termination.
Fuel at least n is always sufficient. -/
def digitsRev : Nat → Nat → List Nat
  | 0, _ => []
  | fuel + 1, n => if n = 0 then [] else n % 10 :: digitsRev fuel (n / 10)

/-- Characters of the Python decimal rendering str n of a natural number. -/
def pyStrData (n : Nat) : List Char :=
  if n = 0 then ['0'] else ((digitsRev (n + 1) n).reverse).map Nat.digitChar

/-- Python str n for a natural number. -/
def pyStr (n : Nat) : String := String.mk (pyStrData n)

/-- Python str i for an integer.  Needed because the width computation in
pytest-generate-tests applies str to len combos minus 1, which is -1 for an
empty combination list. -/
def pyStrI (i : Int) : String :=
  if i < 0 then "-" ++ pyStr i.natAbs else pyStr i.toNat

/-- Python repr of a plain string, as interpolated into the warning
messages. -/
def pyRepr (s : String) : String := "'" ++ s ++ "'"

/-- Right-align a character list in a field of the given width, filling with
spaces on the left; this is what the default d format specifier with a bare
width does inside the id f-string. -/
def padChars (w : Nat) (s : List Char) : List Char :=
  List.replicate (w - s.length) ' ' ++ s

/-- Model of the pretty helper: render sentinel values as "sys", anything
else verbatim. -/
def pretty (val : String) : String :=
  if is_system_sentinel (some val) SYSTEM_TZ || is_system_sentinel (some val) SYSTEM_LOCALE
  then "sys" else val

/-- Order-preserving de-duplication keeping the first occurrence, as
performed by dict.fromkeys in the source. -/
def pyDedup [DecidableEq α] : List α → List α
  | [] => []
  | x :: xs => x :: (pyDedup xs).filter (fun y => decide (y ≠ x))

/-- itertools.product of two lists: first-component-major order. -/
def pyProduct (T : List α) (L : List β) : List (α × β) :=
  T.flatMap fun t => L.map fun l => (t, l)

/-- One pass of filter-valid-timezones: partition candidates into the kept
list (sentinel normalised to the canonical spelling) and the dropped list,
preserving order. -/
def filterTzGo (tzdb : String → Bool) : List String → List String × List String
  | [] => ([], [])
  | tz :: rest =>
    let out := filterTzGo tzdb rest
    if is_system_sentinel (some tz) SYSTEM_TZ then (SYSTEM_TZ :: out.1, out.2)
    else if tzdb tz then (tz :: out.1, out.2)
    else (out.1, tz :: out.2)

/-- Model of filter-valid-timezones: keep the sentinel and the zones present
in the database oracle, and emit one warning naming every dropped candidate
when any was dropped.  Returns the kept list and the warnings. -/
def filter_valid_timezones (tzdb : String → Bool) (tzs : List String) :
    List String × List String :=
  let out := filterTzGo tzdb tzs
  (out.1,
    if out.2.isEmpty then []
    else ["tzshift: ignoring unknown time-zones: " ++
      String.intercalate ", " (out.2.map pyRepr)])

/-- Result of one setlocale call: the new locale state, or none when the call
raises a locale error because the candidate is not available on this host. -/
def setlocale (avail : String → Bool) (loc : String) (_st : String) : Option String :=
  if avail loc then some loc else none

/-- Model of locale-is-available: snapshot the current locale, try to apply
the candidate, and roll back to the snapshot in a finally block.  Returns
the answer together with the post state; none models an exception escaping
from the rollback itself. -/
def locale_is_available (avail : String → Bool) (loc : String) (st : String) :
    Option (Bool × String) :=
  if is_system_sentinel (some loc) SYSTEM_LOCALE then some (true, st)
  else
    let original := st
    match setlocale avail loc st with
    | some st1 =>
      match setlocale avail original st1 with
      | some st2 => some (true, st2)
      | none => none
    | none =>
      match setlocale avail original st with
      | some st2 => some (false, st2)
      | none => none

/-- Recursive worker for filter-valid-locales: threads the locale state
through the availability probes and partitions candidates into valid (with
the sentinel normalised) and bad. -/
def filterLocGo (avail : String → Bool) : List String → String →
    Option (List String × List String × String)
  | [], st => some ([], [], st)
  | loc :: rest, st =>
    match locale_is_available avail loc st with
    | none => none
    | some (ok, st1) =>
      match filterLocGo avail rest st1 with
      | none => none
      | some (v, b, st2) =>
        if ok then
          some ((if is_system_sentinel (some loc) SYSTEM_LOCALE then SYSTEM_LOCALE else loc) :: v,
            b, st2)
        else some (v, loc :: b, st2)

/-- Model of filter-valid-locales: probe every candidate, keep the available
ones, and emit one warning naming all dropped candidates when any were
dropped. -/
def filter_valid_locales (avail : String → Bool) (locs : List String) (st : String) :
    Option (List String × List String × String) :=
  (filterLocGo avail locs st).map fun out =>
    (out.1,
      (if out.2.1.isEmpty then []
       else ["tzshift: ignoring unavailable locales: " ++
         String.intercalate ", " (out.2.1.map pyRepr)]),
      out.2.2)

/-- A value passed to the timezones or locales keyword of the tzshift
marker: Python None, a single string, or a list of strings (the shapes the
as-list helper accepts). -/
inductive MarkerVal where
  | none
  | str (s : String)
  | list (l : List String)
deriving DecidableEq

/-- Model of the as-list helper: None becomes the empty list, a string a
singleton, a sequence its list of elements. -/
def as_list : MarkerVal → List String
  | .none => []
  | .str s => [s]
  | .list l => l

/-- One tzshift marker.  A field is none when the keyword was not passed at
all; disable carries the boolean value actually passed. -/
structure Marker where
  timezones : Option MarkerVal
  locales : Option MarkerVal
  disable : Option Bool
deriving DecidableEq

/-- The accumulating loop of collect-marker-overrides over the markers
listed innermost first. -/
def collectGo : List Marker → Option Bool → Option (List String) → Option (List String) →
    Option Bool × Option (List String) × Option (List String)
  | [], d, t, l => (d, t, l)
  | m :: rest, d, t, l =>
    collectGo rest
      (if d.isNone && m.disable.getD false then some true else d)
      (match t, m.timezones with
        | Option.none, some v => some (as_list v)
        | t0, _ => t0)
      (match l, m.locales with
        | Option.none, some v => some (as_list v)
        | l0, _ => l0)

/-- Model of collect-marker-overrides: walk the markers innermost first,
latch the first truthy disable and the first present value per dimension. -/
def collect_marker_overrides (ms : List Marker) :
    Bool × Option (List String) × Option (List String) :=
  let out := collectGo ms none none none
  (out.1.getD false, out.2.1, out.2.2)

/-- Model of get-max-combinations: the command line wins over the ini value;
negative caps are a usage error; zero means no cap. -/
def get_max_combinations (cliVal : Option Int) (iniVal : Int) : Except String (Option Nat) :=
  let val := cliVal.getD iniVal
  if val < 0 then Except.error "tzshift: --tzshift-max cannot be negative"
  else if val = 0 then Except.ok none
  else Except.ok (some val.toNat)

/-- The truncation warning message from pytest-generate-tests. -/
def truncMsg (kept total : Nat) : String :=
  "tzshift: limiting parameterisation to first " ++ pyStr kept ++ " of " ++
    pyStr total ++ " combinations (see --tzshift-max)"

/-- Cap application: when a cap is set and exceeded, keep the first cap
combinations and emit the truncation warning. -/
def applyCap (combos0 : List (String × String)) (maxCombos : Option Nat) :
    List (String × String) × List String :=
  match maxCombos with
  | some m =>
    if combos0.length > m then (combos0.take m, [truncMsg m combos0.length])
    else (combos0, [])
  | none => (combos0, [])

/-- The field width used for the run index: the length of str applied to
len combos minus 1, at least 1, with the subtraction performed on integers
as in Python. -/
def idWidth (combos : List (String × String)) : Nat :=
  max 1 (pyStrI ((combos.length : Int) - 1)).length

/-- One run identifier: the space-padded decimal index and the
pretty-printed pair, joined with the bar separator. -/
def mkId (w : Nat) (idx : Nat) (tz loc : String) : String :=
  String.mk (padChars w (pyStrData idx) ++ '|' :: (pretty tz).data ++ '|' :: (pretty loc).data)

/-- All run identifiers of a final combination list. -/
def mkIds (combos : List (String × String)) : List String :=
  combos.enum.map fun p => mkId (idWidth combos) p.1 p.2.1 p.2.2

/-- Output of run generation: the combination list, its identifiers, and the
warnings emitted while generating. -/
structure GenOut where
  combos : List (String × String)
  ids : List String
  warns : List String
deriving DecidableEq

/-- Lines 337 to 356 of plugin.py over already validated candidate lists:
de-duplicated Cartesian product, optional cap (cap 0 meaning unlimited, as
in get-max-combinations), identifiers. -/
def generate (T L : List String) (cap : Nat) : GenOut :=
  let combos0 := pyDedup (pyProduct T L)
  let capped := applyCap combos0 (if cap = 0 then none else some cap)
  { combos := capped.1, ids := mkIds capped.1, warns := capped.2 }

/-- Result of the pytest-generate-tests hook for one collected test. -/
inductive GenResult where
  | notParametrized
  | usageError (msg : String)
  | parametrized (combos : List (String × String)) (ids : List String)
deriving DecidableEq

/-- Observable outcome of one run of the hook: the pytest-facing result, the
warnings emitted in order, and the final process locale state. -/
structure HookOut where
  res : GenResult
  warnings : List String
  locSt : String
deriving DecidableEq

/-- The timezone list whose emptiness the hook checks: the validated
override when one is present, otherwise the validated de-duplicated global
list. -/
def resolvedTimezones (tzdb : String → Bool) (cfgT : List String)
    (tzOv : Option (List String)) : List String :=
  match tzOv with
  | some l => (filter_valid_timezones tzdb l).1
  | none => (filter_valid_timezones tzdb (pyDedup cfgT)).1

/-- Warnings emitted while validating a timezone override (none when no
override is present, since the global list was already validated). -/
def resolvedTzWarnings (tzdb : String → Bool) (tzOv : Option (List String)) : List String :=
  match tzOv with
  | some l => (filter_valid_timezones tzdb l).2
  | none => []

/-- The locale list whose emptiness the hook checks, evaluated at the
initial locale state (the probes preserve the state whenever the current
locale is itself available). -/
def resolvedLocales (avail : String → Bool) (cfgL : List String)
    (locOv : Option (List String)) (st : String) : Option (List String) :=
  match locOv with
  | some l => (filter_valid_locales avail l st).map fun out => out.1
  | none => (filter_valid_locales avail (pyDedup cfgL) st).map fun out => out.1

/-- Model of pytest-generate-tests after the early-return guards: global
validation of both dimensions, marker overrides, disable short-circuit,
empty-dimension usage errors, cap handling and id synthesis.  none models an
exception escaping a locale rollback.  The global timezone validation of
the source (line 319) is the resolvedTimezones and resolvedTzWarnings calls
below; it happens before the disable check, so its warning is part of the
notParametrized outcome as well. -/
def generate_tests_core (tzdb avail : String → Bool) (cfgT cfgL : List String)
    (markers : List Marker) (cliMax : Option Int) (iniMax : Int) (st : String) :
    Option HookOut :=
  match filter_valid_locales avail (pyDedup cfgL) st with
  | none => none
  | some (loc0, wL, st1) =>
    if (collect_marker_overrides markers).1 then
      some { res := .notParametrized,
             warnings := (filter_valid_timezones tzdb (pyDedup cfgT)).2 ++ wL, locSt := st1 }
    else
      match (match (collect_marker_overrides markers).2.2 with
             | some l => filter_valid_locales avail l st1
             | none => some (loc0, [], st1)) with
      | none => none
      | some (locales, wL2, st2) =>
        if (resolvedTimezones tzdb cfgT (collect_marker_overrides markers).2.1).isEmpty then
          some { res := .usageError "tzshift: no valid time-zones to test with",
                 warnings := (filter_valid_timezones tzdb (pyDedup cfgT)).2 ++ wL ++
                   resolvedTzWarnings tzdb (collect_marker_overrides markers).2.1 ++ wL2,
                 locSt := st2 }
        else if locales.isEmpty then
          some { res := .usageError "tzshift: no valid locales to test with",
                 warnings := (filter_valid_timezones tzdb (pyDedup cfgT)).2 ++ wL ++
                   resolvedTzWarnings tzdb (collect_marker_overrides markers).2.1 ++ wL2,
                 locSt := st2 }
        else
          match get_max_combinations cliMax iniMax with
          | .error msg =>
            some { res := .usageError msg,
                   warnings := (filter_valid_timezones tzdb (pyDedup cfgT)).2 ++ wL ++
                     resolvedTzWarnings tzdb (collect_marker_overrides markers).2.1 ++ wL2,
                   locSt := st2 }
          | .ok maxCombos =>
            some { res := .parametrized
                     (applyCap (pyDedup (pyProduct
                       (resolvedTimezones tzdb cfgT (collect_marker_overrides markers).2.1)
                       locales)) maxCombos).1
                     (mkIds (applyCap (pyDedup (pyProduct
                       (resolvedTimezones tzdb cfgT (collect_marker_overrides markers).2.1)
                       locales)) maxCombos).1),
                   warnings := (filter_valid_timezones tzdb (pyDedup cfgT)).2 ++ wL ++
                     resolvedTzWarnings tzdb (collect_marker_overrides markers).2.1 ++ wL2 ++
                     (applyCap (pyDedup (pyProduct
                       (resolvedTimezones tzdb cfgT (collect_marker_overrides markers).2.1)
                       locales)) maxCombos).2,
                   locSt := st2 }

/-- Model of the full pytest-generate-tests hook including the no-tzshift
flag and the fixture-request guard. -/
def pytest_generate_tests (tzdb avail : String → Bool) (noTzshift usesFixture : Bool)
    (cfgT cfgL : List String) (markers : List Marker) (cliMax : Option Int) (iniMax : Int)
    (st : String) : Option HookOut :=
  if noTzshift then some { res := .notParametrized, warnings := [], locSt := st }
  else if !usesFixture then some { res := .notParametrized, warnings := [], locSt := st }
  else generate_tests_core tzdb avail cfgT cfgL markers cliMax iniMax st

/-- Process state touched by the tzshift fixture: the TZ environment
variable (none when absent) and the active locale. -/
structure HostState where
  tz : Option String
  loc : String
deriving DecidableEq

/-- Whether the test body returned normally or raised. -/
inductive BodyOutcome where
  | ok
  | raised
deriving DecidableEq

/-- Result of one full fixture cycle. -/
inductive CycleResult where
  | skipped (msg : String) (st : HostState)
  | finished (out : BodyOutcome) (val : String × String) (st : HostState)
  | error (st : HostState)
deriving DecidableEq

/-- The message passed to pytest.skip for an unavailable locale, with the
repr quoting of the f-string. -/
def skipMsg (loc : String) : String :=
  "Locale '" ++ loc ++ "' not installed on this platform"

/-- Model of the tzshift fixture generator: read the parameter (sentinel
pair when unparametrized), snapshot TZ and locale, apply locale then
timezone (skipping the run when the locale cannot be set), run the body (an
arbitrary state transformer plus an outcome), and restore the snapshot in
the finally block.  The skip happens before the try block, when nothing has
been changed yet; error models the rollback setlocale itself raising. -/
def tzshiftCycle (avail : String → Bool) (param : Option (String × String))
    (body : HostState → HostState) (out : BodyOutcome) (st : HostState) : CycleResult :=
  let p := param.getD (SYSTEM_TZ, SYSTEM_LOCALE)
  let originalTz := st.tz
  let originalLocale := st.loc
  if !is_system_sentinel (some p.2) SYSTEM_LOCALE && !avail p.2 then
    .skipped (skipMsg p.2) st
  else
    let st1 := if is_system_sentinel (some p.2) SYSTEM_LOCALE then st else { st with loc := p.2 }
    let st2 := if is_system_sentinel (some p.1) SYSTEM_TZ then st1 else { st1 with tz := some p.1 }
    let st3 := body st2
    if avail originalLocale then
      let st4 := { st3 with loc := originalLocale }
      let st5 := match originalTz with
        | none => { st4 with tz := none }
        | some v => { st4 with tz := some v }
      .finished out p st5
    else .error st3

/-! ### Decimal rendering: round trip, digit bounds, length bounds -/

/-- Value of a little-endian decimal digit list. -/
def ofRev : List Nat → Nat
  | [] => 0
  | d :: ds => d + 10 * ofRev ds

theorem ofRev_digitsRev : ∀ (fuel n : Nat), n ≤ fuel → ofRev (digitsRev fuel n) = n := by
  intro fuel
  induction fuel with
  | zero =>
    intro n h
    interval_cases n
    rfl
  | succ fuel ih =>
    intro n h
    by_cases h0 : n = 0
    · subst h0; simp [digitsRev, ofRev]
    · have hdiv : n / 10 ≤ fuel := by
        have := Nat.div_lt_self (Nat.pos_of_ne_zero h0) (show 1 < 10 by norm_num)
        omega
      simp only [digitsRev, if_neg h0, ofRev]
      rw [ih _ hdiv]
      exact Nat.mod_add_div n 10

theorem digitsRev_lt : ∀ (fuel n : Nat), ∀ d ∈ digitsRev fuel n, d < 10 := by
  intro fuel
  induction fuel with
  | zero => intro n d hd; simp [digitsRev] at hd
  | succ fuel ih =>
    intro n d hd
    by_cases h0 : n = 0
    · subst h0; simp [digitsRev] at hd
    · simp only [digitsRev, if_neg h0, List.mem_cons] at hd
      rcases hd with h | h
      · subst h; exact Nat.mod_lt _ (by norm_num)
      · exact ih _ _ h

theorem lt_pow_digitsRev_length :
    ∀ (fuel n : Nat), n ≤ fuel → n < 10 ^ (digitsRev fuel n).length := by
  intro fuel
  induction fuel with
  | zero =>
    intro n h
    interval_cases n
    simp [digitsRev]
  | succ fuel ih =>
    intro n h
    by_cases h0 : n = 0
    · subst h0; simp [digitsRev]
    · have hdiv : n / 10 ≤ fuel := by
        have := Nat.div_lt_self (Nat.pos_of_ne_zero h0) (show 1 < 10 by norm_num)
        omega
      have hih := ih (n / 10) hdiv
      simp only [digitsRev, if_neg h0, List.length_cons]
      rw [Nat.pow_succ]
      have hmd := Nat.mod_add_div n 10
      have hm : n % 10 < 10 := Nat.mod_lt _ (by norm_num)
      have h2 : (n / 10 + 1) * 10 ≤ 10 ^ (digitsRev fuel (n / 10)).length * 10 :=
        Nat.mul_le_mul_right _ (by omega)
      omega

theorem digitsRev_length_le :
    ∀ (fuel n k : Nat), n ≤ fuel → n < 10 ^ k → (digitsRev fuel n).length ≤ k := by
  intro fuel
  induction fuel with
  | zero => intro n k _ _; simp [digitsRev]
  | succ fuel ih =>
    intro n k h hk
    by_cases h0 : n = 0
    · subst h0; simp [digitsRev]
    · cases k with
      | zero => simp at hk; omega
      | succ k =>
        have hdiv : n / 10 ≤ fuel := by
          have := Nat.div_lt_self (Nat.pos_of_ne_zero h0) (show 1 < 10 by norm_num)
          omega
        have hk2 : n / 10 < 10 ^ k := by
          rw [Nat.pow_succ] at hk
          exact (Nat.div_lt_iff_lt_mul (by norm_num)).mpr hk
        simp only [digitsRev, if_neg h0, List.length_cons]
        exact Nat.succ_le_succ (ih _ _ hdiv hk2)

/-! ### Lemmas about the rendered decimal strings -/

theorem pyStrData_length_pos (n : Nat) : 1 ≤ (pyStrData n).length := by
  by_cases h0 : n = 0
  · subst h0; simp [pyStrData]
  · simp only [pyStrData, if_neg h0, List.length_map, List.length_reverse]
    show 1 ≤ (digitsRev (n + 1) n).length
    simp only [digitsRev, if_neg h0, List.length_cons]
    omega

theorem pyStrData_length_eq (n : Nat) (h : n ≠ 0) :
    (pyStrData n).length = (digitsRev (n + 1) n).length := by
  simp [pyStrData, h]

theorem pyStrData_length_mono {i j : Nat} (hij : i ≤ j) :
    (pyStrData i).length ≤ (pyStrData j).length := by
  by_cases hi : i = 0
  · subst hi
    have h1 : (pyStrData 0).length = 1 := rfl
    rw [h1]
    exact pyStrData_length_pos j
  · have hj : j ≠ 0 := by omega
    rw [pyStrData_length_eq i hi, pyStrData_length_eq j hj]
    apply digitsRev_length_le (i + 1) i _ (by omega)
    have hlt : j < 10 ^ (digitsRev (j + 1) j).length :=
      lt_pow_digitsRev_length (j + 1) j (by omega)
    omega

theorem pyStrData_ne_space (n : Nat) : ∀ c ∈ pyStrData n, c ≠ ' ' := by
  intro c hc
  by_cases h0 : n = 0
  · subst h0
    simp [pyStrData] at hc
    subst hc
    decide
  · simp only [pyStrData, if_neg h0, List.mem_map, List.mem_reverse] at hc
    obtain ⟨d, hd, rfl⟩ := hc
    have hlt : d < 10 := digitsRev_lt _ _ d hd
    interval_cases d <;> decide

theorem digitChar_inj {a b : Nat} (h1 : a < 10) (h2 : b < 10)
    (h : Nat.digitChar a = Nat.digitChar b) : a = b := by
  interval_cases a <;> interval_cases b <;> first | rfl | exact absurd h (by decide)

theorem map_digitChar_inj : ∀ (xs ys : List Nat), (∀ d ∈ xs, d < 10) → (∀ d ∈ ys, d < 10) →
    xs.map Nat.digitChar = ys.map Nat.digitChar → xs = ys := by
  intro xs
  induction xs with
  | nil =>
    intro ys _ _ h
    cases ys with
    | nil => rfl
    | cons y ys => simp at h
  | cons x xs ih =>
    intro ys h1 h2 h
    cases ys with
    | nil => simp at h
    | cons y ys =>
      simp only [List.map_cons, List.cons.injEq] at h
      have hx : x = y :=
        digitChar_inj (h1 x (by simp)) (h2 y (by simp)) h.1
      have hrest : xs = ys :=
        ih ys (fun d hd => h1 d (by simp [hd])) (fun d hd => h2 d (by simp [hd])) h.2
      rw [hx, hrest]

theorem pyStrData_eq_map (n : Nat) :
    pyStrData n = ((if n = 0 then [0] else digitsRev (n + 1) n).reverse).map Nat.digitChar := by
  by_cases h0 : n = 0
  · subst h0; simp [pyStrData]; rfl
  · simp [pyStrData, h0]

theorem nDigits_lt (n : Nat) : ∀ d ∈ (if n = 0 then [0] else digitsRev (n + 1) n), d < 10 := by
  by_cases h0 : n = 0
  · subst h0; simp
  · simp only [if_neg h0]
    exact digitsRev_lt _ _

theorem ofRev_nDigits (n : Nat) : ofRev (if n = 0 then [0] else digitsRev (n + 1) n) = n := by
  by_cases h0 : n = 0
  · subst h0; simp [ofRev]
  · simp only [if_neg h0]
    exact ofRev_digitsRev _ _ (by omega)

theorem pyStrData_inj {m n : Nat} (h : pyStrData m = pyStrData n) : m = n := by
  rw [pyStrData_eq_map, pyStrData_eq_map] at h
  have hm := nDigits_lt m
  have hn := nDigits_lt n
  have hrev := map_digitChar_inj _ _
    (fun d hd => hm d (List.mem_reverse.mp hd))
    (fun d hd => hn d (List.mem_reverse.mp hd)) h
  have heq := List.reverse_injective hrev
  have := ofRev_nDigits m
  rw [heq, ofRev_nDigits n] at this
  omega

/-! ### Padding lemmas -/

theorem padChars_length {s : List Char} {w : Nat} (h : s.length ≤ w) :
    (padChars w s).length = w := by
  simp [padChars]
  omega

theorem padChars_inj_aux {s t : List Char} {w : Nat} (hs : s.length ≤ w)
    (htp : ∀ c ∈ t, c ≠ ' ') (hlt : s.length < t.length)
    (h : padChars w s = padChars w t) : False := by
  have hlen := congrArg List.length h
  simp only [padChars, List.length_append, List.length_replicate] at hlen
  have ht : t.length ≤ w := by omega
  have hsplit : w - s.length = (w - t.length) + (t.length - s.length) := by omega
  rw [padChars, padChars, hsplit, List.replicate_add, List.append_assoc] at h
  have h2 := (List.append_inj h (by simp)).2
  have hmem : ' ' ∈ t := by
    rw [← h2]
    exact List.mem_append_left _ (List.mem_replicate.mpr ⟨by omega, rfl⟩)
  exact htp ' ' hmem rfl

theorem padChars_inj {s t : List Char} {w : Nat} (hs : s.length ≤ w) (ht : t.length ≤ w)
    (hsp : ∀ c ∈ s, c ≠ ' ') (htp : ∀ c ∈ t, c ≠ ' ')
    (h : padChars w s = padChars w t) : s = t := by
  rcases Nat.lt_trichotomy s.length t.length with hlt | heq | hgt
  · exact (padChars_inj_aux hs htp hlt h).elim
  · exact (List.append_inj h (by simp [heq])).2
  · exact (padChars_inj_aux ht hsp hgt h.symm).elim

/-! ### Identifier lemmas -/

theorem mkId_inj {w i j : Nat} {tz1 loc1 tz2 loc2 : String}
    (hi : (pyStrData i).length ≤ w) (hj : (pyStrData j).length ≤ w)
    (h : mkId w i tz1 loc1 = mkId w j tz2 loc2) : i = j := by
  unfold mkId at h
  have hdata : padChars w (pyStrData i) ++ '|' :: (pretty tz1).data ++ '|' :: (pretty loc1).data =
      padChars w (pyStrData j) ++ '|' :: (pretty tz2).data ++ '|' :: (pretty loc2).data :=
    congrArg String.data h
  rw [List.append_assoc, List.append_assoc] at hdata
  have hpad := (List.append_inj hdata (by rw [padChars_length hi, padChars_length hj])).1
  exact pyStrData_inj
    (padChars_inj hi hj (pyStrData_ne_space i) (pyStrData_ne_space j) hpad)

theorem idWidth_ge {combos : List (String × String)} {i : Nat} (h : i < combos.length) :
    (pyStrData i).length ≤ idWidth combos := by
  unfold idWidth
  have hn : 1 ≤ combos.length := by omega
  have hI : pyStrI ((combos.length : Int) - 1) = pyStr (combos.length - 1) := by
    unfold pyStrI
    rw [if_neg (by omega : ¬ ((combos.length : Int) - 1 < 0))]
    have hnat : ((combos.length : Int) - 1).toNat = combos.length - 1 := by omega
    rw [hnat]
  rw [hI]
  have hlen : (pyStr (combos.length - 1)).length = (pyStrData (combos.length - 1)).length := rfl
  rw [hlen]
  have hmono := pyStrData_length_mono (show i ≤ combos.length - 1 by omega)
  omega

theorem mkIds_nodup (combos : List (String × String)) : (mkIds combos).Nodup := by
  unfold mkIds
  have hfst : (List.map Prod.fst combos.enum).Nodup := by
    rw [List.enum_map_fst]
    exact List.nodup_range _
  have henum : combos.enum.Nodup := List.Nodup.of_map _ hfst
  apply List.Nodup.map_on _ henum
  intro x hx y hy hxy
  have hx1 : x.1 < combos.length := by
    have hm : x.1 ∈ List.map Prod.fst combos.enum := List.mem_map_of_mem _ hx
    rw [List.enum_map_fst] at hm
    exact List.mem_range.mp hm
  have hy1 : y.1 < combos.length := by
    have hm : y.1 ∈ List.map Prod.fst combos.enum := List.mem_map_of_mem _ hy
    rw [List.enum_map_fst] at hm
    exact List.mem_range.mp hm
  have hij : x.1 = y.1 := mkId_inj (idWidth_ge hx1) (idWidth_ge hy1) hxy
  exact List.inj_on_of_nodup_map hfst hx hy hij

theorem enumFrom_take {α : Type} :
    ∀ (l : List α) (s c : Nat), (List.enumFrom s l).take c = List.enumFrom s (l.take c) := by
  intro l
  induction l with
  | nil => simp
  | cons x xs ih =>
    intro s c
    cases c with
    | zero => simp
    | succ c => simp [List.enumFrom, ih]

theorem mkIds_length (combos : List (String × String)) :
    (mkIds combos).length = combos.length := by
  simp [mkIds]

theorem mkIds_take {combos : List (String × String)} {c : Nat}
    (hw : idWidth (combos.take c) = idWidth combos) :
    mkIds (combos.take c) = (mkIds combos).take c := by
  unfold mkIds
  rw [hw, ← List.map_take]
  have henum : (combos.take c).enum = combos.enum.take c := by
    show List.enumFrom 0 (combos.take c) = (List.enumFrom 0 combos).take c
    rw [enumFrom_take]
  rw [henum]

/-! ### De-duplication and product lemmas -/

theorem mem_pyDedup [DecidableEq α] : ∀ (l : List α) (a : α), a ∈ pyDedup l ↔ a ∈ l := by
  intro l
  induction l with
  | nil => intro a; simp [pyDedup]
  | cons x xs ih =>
    intro a
    simp only [pyDedup, List.mem_cons, List.mem_filter, ih, decide_eq_true_eq]
    constructor
    · rintro (rfl | ⟨h1, _⟩)
      · exact Or.inl rfl
      · exact Or.inr h1
    · rintro (rfl | h1)
      · exact Or.inl rfl
      · by_cases hax : a = x
        · exact Or.inl hax
        · exact Or.inr ⟨h1, hax⟩

theorem pyDedup_nodup [DecidableEq α] : ∀ (l : List α), (pyDedup l).Nodup := by
  intro l
  induction l with
  | nil => simp [pyDedup]
  | cons x xs ih =>
    rw [pyDedup, List.nodup_cons]
    constructor
    · intro hmem
      have := (List.mem_filter.mp hmem).2
      simp at this
    · exact List.Nodup.filter _ ih

theorem pyDedup_eq_self [DecidableEq α] : ∀ (l : List α), l.Nodup → pyDedup l = l := by
  intro l
  induction l with
  | nil => intro _; rfl
  | cons x xs ih =>
    intro h
    rw [List.nodup_cons] at h
    rw [pyDedup, ih h.2]
    congr 1
    rw [List.filter_eq_self]
    intro a ha
    simp only [decide_eq_true_eq]
    intro hax
    exact h.1 (hax ▸ ha)

theorem mem_pyProduct {T : List α} {L : List β} {p : α × β} :
    p ∈ pyProduct T L ↔ p.1 ∈ T ∧ p.2 ∈ L := by
  simp only [pyProduct, List.mem_flatMap, List.mem_map]
  constructor
  · rintro ⟨t, ht, l, hl, rfl⟩
    exact ⟨ht, hl⟩
  · rintro ⟨h1, h2⟩
    exact ⟨p.1, h1, p.2, h2, rfl⟩

theorem length_pyProduct (T : List α) (L : List β) :
    (pyProduct T L).length = T.length * L.length := by
  induction T with
  | nil => simp [pyProduct]
  | cons t T ih =>
    simp only [pyProduct, List.flatMap_cons, List.length_append, List.length_map] at *
    rw [ih]
    simp [List.length_cons, Nat.mul_succ, Nat.succ_mul]
    ring

theorem pyProduct_nodup {T : List α} {L : List β} (hT : T.Nodup) (hL : L.Nodup) :
    (pyProduct T L).Nodup := by
  induction T with
  | nil => simp [pyProduct]
  | cons t T ih =>
    rw [List.nodup_cons] at hT
    have hstep : pyProduct (t :: T) L = (L.map fun l => (t, l)) ++ pyProduct T L := by
      simp [pyProduct]
    rw [hstep]
    apply List.Nodup.append
    · exact hL.map fun a b hab => by
        have := Prod.mk.injEq t a t b ▸ hab
        exact (Prod.mk.injEq t a t b).mp hab |>.2
    · exact ih hT.2
    · intro p hp1 hp2
      obtain ⟨l, _, rfl⟩ := List.mem_map.mp hp1
      have := (mem_pyProduct.mp hp2).1
      exact hT.1 this

/-! ### Marker override characterization -/

/-- First-present override for one dimension, walking innermost first. -/
def firstPresent (get : Marker → Option MarkerVal) (ms : List Marker) : Option (List String) :=
  ((ms.find? fun m => (get m).isSome).bind get).map as_list

/-- Left-biased choice of optional values. -/
def ovOr (a b : Option α) : Option α :=
  match a with
  | some v => some v
  | none => b

theorem ovOr_none (a : Option α) : ovOr a none = a := by
  cases a <;> rfl

theorem firstPresent_cons (get : Marker → Option MarkerVal) (m : Marker) (ms : List Marker) :
    firstPresent get (m :: ms) =
      match get m with
      | some v => some (as_list v)
      | none => firstPresent get ms := by
  unfold firstPresent
  cases hg : get m with
  | some v =>
    rw [List.find?_cons_of_pos _ (by simp [hg])]
    simp [hg]
  | none =>
    rw [List.find?_cons_of_neg _ (by simp [hg])]

theorem collectGo_cons (m : Marker) (ms : List Marker) (d : Option Bool)
    (t l : Option (List String)) :
    collectGo (m :: ms) d t l = collectGo ms
      (if d.isNone && m.disable.getD false then some true else d)
      (match t, m.timezones with
        | Option.none, some v => some (as_list v)
        | t0, _ => t0)
      (match l, m.locales with
        | Option.none, some v => some (as_list v)
        | l0, _ => l0) := rfl

theorem collectGo_fst : ∀ (ms : List Marker) (d : Option Bool) (t l : Option (List String)),
    (collectGo ms d t l).1 =
      ovOr d (if ms.any fun m => m.disable.getD false then some true else none) := by
  intro ms
  induction ms with
  | nil => intro d t l; simp [collectGo, ovOr_none]
  | cons m ms ih =>
    intro d t l
    rw [collectGo_cons, ih]
    cases d with
    | some b => simp [ovOr]
    | none =>
      by_cases hb : m.disable.getD false = true
      · simp [ovOr, hb, List.any_cons]
      · have hb2 : m.disable.getD false = false := by
          cases hmd : m.disable.getD false
          · rfl
          · exact absurd hmd hb
        simp [ovOr, hb2, List.any_cons]

theorem collectGo_tz : ∀ (ms : List Marker) (d : Option Bool) (t l : Option (List String)),
    (collectGo ms d t l).2.1 = ovOr t (firstPresent (fun m => m.timezones) ms) := by
  intro ms
  induction ms with
  | nil => intro d t l; simp [collectGo, firstPresent, ovOr_none]
  | cons m ms ih =>
    intro d t l
    rw [collectGo_cons, ih, firstPresent_cons]
    cases t with
    | some tv => cases m.timezones <;> simp [ovOr]
    | none =>
      cases m.timezones with
      | some v => simp [ovOr]
      | none => simp [ovOr]

theorem collectGo_loc : ∀ (ms : List Marker) (d : Option Bool) (t l : Option (List String)),
    (collectGo ms d t l).2.2 = ovOr l (firstPresent (fun m => m.locales) ms) := by
  intro ms
  induction ms with
  | nil => intro d t l; simp [collectGo, firstPresent, ovOr_none]
  | cons m ms ih =>
    intro d t l
    rw [collectGo_cons, ih, firstPresent_cons]
    cases l with
    | some lv => cases m.locales <;> simp [ovOr]
    | none =>
      cases m.locales with
      | some v => simp [ovOr]
      | none => simp [ovOr]

theorem collect_marker_overrides_eq (ms : List Marker) :
    collect_marker_overrides ms =
      ((ms.any fun m => m.disable.getD false),
       firstPresent (fun m => m.timezones) ms,
       firstPresent (fun m => m.locales) ms) := by
  show ((collectGo ms none none none).1.getD false,
    (collectGo ms none none none).2.1, (collectGo ms none none none).2.2) = _
  rw [collectGo_fst, collectGo_tz, collectGo_loc]
  refine Prod.ext ?_ (Prod.ext ?_ ?_)
  · show (ovOr none (if ms.any fun m => m.disable.getD false then some true else none)).getD false
      = (ms.any fun m => m.disable.getD false)
    by_cases h : (ms.any fun m => m.disable.getD false) = true
    · simp [ovOr, h]
    · simp only [Bool.not_eq_true] at h
      simp [ovOr, h]
  · simp [ovOr]
  · simp [ovOr]

/-! ### Locale probe state preservation -/

theorem locale_is_available_state (avail : String → Bool) (st : String)
    (hA : avail st = true) (loc : String) :
    locale_is_available avail loc st =
      some (is_system_sentinel (some loc) SYSTEM_LOCALE || avail loc, st) := by
  unfold locale_is_available setlocale
  by_cases hs : is_system_sentinel (some loc) SYSTEM_LOCALE = true
  · simp [hs]
  · simp only [Bool.not_eq_true] at hs
    by_cases hl : avail loc = true
    · simp [hs, hl, hA]
    · simp only [Bool.not_eq_true] at hl
      simp [hs, hl, hA]

theorem filterLocGo_state (avail : String → Bool) (st : String) (hA : avail st = true) :
    ∀ locs : List String, ∃ v b, filterLocGo avail locs st = some (v, b, st) := by
  intro locs
  induction locs with
  | nil => exact ⟨[], [], rfl⟩
  | cons loc rest ih =>
    obtain ⟨v, b, hrest⟩ := ih
    by_cases hok : (is_system_sentinel (some loc) SYSTEM_LOCALE || avail loc) = true
    · exact ⟨(if is_system_sentinel (some loc) SYSTEM_LOCALE then SYSTEM_LOCALE else loc) :: v,
        b, by simp [filterLocGo, locale_is_available_state avail st hA loc, hrest, hok]⟩
    · simp only [Bool.not_eq_true] at hok
      exact ⟨v, loc :: b,
        by simp [filterLocGo, locale_is_available_state avail st hA loc, hrest, hok]⟩

theorem filter_valid_locales_state (avail : String → Bool) (st : String)
    (hA : avail st = true) (locs : List String) :
    ∃ v w, filter_valid_locales avail locs st = some (v, w, st) := by
  obtain ⟨v, b, h⟩ := filterLocGo_state avail st hA locs
  refine ⟨v, (if b.isEmpty then [] else ["tzshift: ignoring unavailable locales: " ++
    String.intercalate ", " (b.map pyRepr)]), ?_⟩
  simp [filter_valid_locales, h]

/-! ### Claim theorems -/

/-- C1: for every pair handed to the tzshift fixture, if applying the locale
succeeds then one full apply, run, restore cycle leaves the host state
exactly as before: the TZ variable has the same presence and value (removed
again if it was absent) and the locale equals its prior value, whether the
body returns normally or raises, and whatever the body does to the state. -/
theorem tzshift_cycle_roundtrip (avail : String → Bool) (tz loc : String)
    (body : HostState → HostState) (out : BodyOutcome) (st : HostState)
    (hRestore : avail st.loc = true)
    (hApply : is_system_sentinel (some loc) SYSTEM_LOCALE = true ∨ avail loc = true) :
    tzshiftCycle avail (some (tz, loc)) body out st = .finished out (tz, loc) st := by
  obtain ⟨stz, sloc⟩ := st
  have hskip : (!is_system_sentinel (some loc) SYSTEM_LOCALE && !avail loc) = false := by
    rcases hApply with h | h <;> simp [h]
  unfold tzshiftCycle
  simp only [Option.getD_some]
  rw [hskip]
  simp only [Bool.false_eq_true, if_false]
  have hR : avail sloc = true := hRestore
  cases stz <;> simp [hR]

/-- C1 witness: a concrete cycle with TZ present, an available locale and a
state-mutating body restores the exact initial state. -/
theorem tzshift_cycle_roundtrip_witness :
    tzshiftCycle (fun s => s == "C") (some ("Asia/Tokyo", "C"))
      (fun st => { st with tz := some "clobbered" }) .raised
      { tz := some "UTC0", loc := "C" } =
      .finished .raised ("Asia/Tokyo", "C") { tz := some "UTC0", loc := "C" } :=
  tzshift_cycle_roundtrip (fun s => s == "C") "Asia/Tokyo" "C"
    (fun st => { st with tz := some "clobbered" }) .raised
    { tz := some "UTC0", loc := "C" } (by decide) (Or.inr (by decide))

/-- C2: in the fixture the locale is applied before the timezone; when
applying a non-sentinel locale fails, the run is skipped with a message
naming the offending locale, and at that moment neither the TZ variable nor
the locale has been changed (the result carries the untouched state). -/
theorem tzshift_locale_failure_skips (avail : String → Bool) (tz loc : String)
    (body : HostState → HostState) (out : BodyOutcome) (st : HostState)
    (hSent : is_system_sentinel (some loc) SYSTEM_LOCALE = false)
    (hAvail : avail loc = false) :
    tzshiftCycle avail (some (tz, loc)) body out st = .skipped (skipMsg loc) st ∧
    ∃ pre post, skipMsg loc = pre ++ loc ++ post := by
  constructor
  · unfold tzshiftCycle
    simp [hSent, hAvail]
  · exact ⟨"Locale '", "' not installed on this platform", rfl⟩

/-- C2 witness: a concrete unavailable locale makes the cycle skip with the
state unchanged and the locale named in the message. -/
theorem tzshift_locale_failure_skips_witness :
    tzshiftCycle (fun s => s == "C") (some ("UTC", "xx_YY")) id .ok
      { tz := none, loc := "C" } = .skipped (skipMsg "xx_YY") { tz := none, loc := "C" } ∧
    ∃ pre post, skipMsg "xx_YY" = pre ++ "xx_YY" ++ post :=
  tzshift_locale_failure_skips (fun s => s == "C") "UTC" "xx_YY" id .ok
    { tz := none, loc := "C" } (by decide) (by decide)

/-- C9: the locale availability probe never leaves the host mutated: for any
candidate, accepted or rejected, the post-probe locale equals the pre-probe
locale, and the same holds across a whole filter-valid-locales pass. -/
theorem locale_probe_preserves_state (avail : String → Bool) (st : String)
    (hA : avail st = true) :
    (∀ loc, ∃ answer, locale_is_available avail loc st = some (answer, st)) ∧
    (∀ locs, ∃ v w, filter_valid_locales avail locs st = some (v, w, st)) := by
  constructor
  · intro loc
    exact ⟨_, locale_is_available_state avail st hA loc⟩
  · intro locs
    exact filter_valid_locales_state avail st hA locs

/-- C9 witness: a concrete successful probe is rolled back to the snapshot. -/
theorem locale_probe_preserves_state_witness :
    ∃ answer, locale_is_available (fun s => s == "C" || s == "de_DE.UTF-8") "de_DE.UTF-8" "C" =
      some (answer, "C") :=
  (locale_probe_preserves_state (fun s => s == "C" || s == "de_DE.UTF-8") "C" (by decide)).1
    "de_DE.UTF-8"

/-! ### Hook helper lemmas -/

theorem hook_run_eq_core (tzdb avail : String → Bool) (cfgT cfgL : List String)
    (markers : List Marker) (cliMax : Option Int) (iniMax : Int) (st : String) :
    pytest_generate_tests tzdb avail false true cfgT cfgL markers cliMax iniMax st =
      generate_tests_core tzdb avail cfgT cfgL markers cliMax iniMax st := rfl

theorem tzshift_cycle_default (avail : String → Bool) (body : HostState → HostState)
    (out : BodyOutcome) (st : HostState) (h : avail st.loc = true) :
    tzshiftCycle avail none body out st = .finished out (SYSTEM_TZ, SYSTEM_LOCALE) st := by
  obtain ⟨stz, sloc⟩ := st
  have hsent : is_system_sentinel (some SYSTEM_LOCALE) SYSTEM_LOCALE = true := by decide
  have hsent2 : is_system_sentinel (some SYSTEM_TZ) SYSTEM_TZ = true := by decide
  have hR : avail sloc = true := h
  unfold tzshiftCycle
  simp only [Option.getD_none]
  cases stz <;> simp [hsent, hsent2, hR]

theorem core_empty_tz (tzdb avail : String → Bool) (cfgT cfgL : List String)
    (markers : List Marker) (cliMax : Option Int) (iniMax : Int) (st : String)
    (hA : avail st = true) (hD : (collect_marker_overrides markers).1 = false)
    (hTz : resolvedTimezones tzdb cfgT (collect_marker_overrides markers).2.1 = []) :
    ∃ w st2, pytest_generate_tests tzdb avail false true cfgT cfgL markers cliMax iniMax st =
      some { res := .usageError "tzshift: no valid time-zones to test with",
             warnings := w, locSt := st2 } := by
  obtain ⟨v, wL, hfl⟩ := filter_valid_locales_state avail st hA (pyDedup cfgL)
  cases hov : (collect_marker_overrides markers).2.2 with
  | none =>
    refine ⟨(filter_valid_timezones tzdb (pyDedup cfgT)).2 ++ wL ++
      resolvedTzWarnings tzdb (collect_marker_overrides markers).2.1 ++ [], st, ?_⟩
    rw [hook_run_eq_core]
    unfold generate_tests_core
    rw [hfl]
    simp only [hD, hov, Bool.false_eq_true, if_false]
    rw [hTz]
    simp
  | some l =>
    obtain ⟨v2, w2, hfl2⟩ := filter_valid_locales_state avail st hA l
    refine ⟨(filter_valid_timezones tzdb (pyDedup cfgT)).2 ++ wL ++
      resolvedTzWarnings tzdb (collect_marker_overrides markers).2.1 ++ w2, st, ?_⟩
    rw [hook_run_eq_core]
    unfold generate_tests_core
    rw [hfl]
    simp only [hD, hov, Bool.false_eq_true, if_false]
    rw [hfl2]
    rw [hTz]
    simp

theorem core_empty_loc (tzdb avail : String → Bool) (cfgT cfgL : List String)
    (markers : List Marker) (cliMax : Option Int) (iniMax : Int) (st : String)
    (hA : avail st = true) (hD : (collect_marker_overrides markers).1 = false)
    (hTz : resolvedTimezones tzdb cfgT (collect_marker_overrides markers).2.1 ≠ [])
    (hLoc : resolvedLocales avail cfgL (collect_marker_overrides markers).2.2 st = some []) :
    ∃ w st2, pytest_generate_tests tzdb avail false true cfgT cfgL markers cliMax iniMax st =
      some { res := .usageError "tzshift: no valid locales to test with",
             warnings := w, locSt := st2 } := by
  obtain ⟨v, wL, hfl⟩ := filter_valid_locales_state avail st hA (pyDedup cfgL)
  have hTzEmpty : (resolvedTimezones tzdb cfgT (collect_marker_overrides markers).2.1).isEmpty
      = false := by
    cases hr : resolvedTimezones tzdb cfgT (collect_marker_overrides markers).2.1 with
    | nil => exact absurd hr hTz
    | cons x xs => rfl
  cases hov : (collect_marker_overrides markers).2.2 with
  | none =>
    have hv : v = [] := by
      unfold resolvedLocales at hLoc
      rw [hov] at hLoc
      simp [hfl] at hLoc
      exact hLoc
    refine ⟨(filter_valid_timezones tzdb (pyDedup cfgT)).2 ++ wL ++
      resolvedTzWarnings tzdb (collect_marker_overrides markers).2.1 ++ [], st, ?_⟩
    rw [hook_run_eq_core]
    unfold generate_tests_core
    rw [hfl]
    simp only [hD, hov, Bool.false_eq_true, if_false]
    rw [hTzEmpty, hv]
    simp
  | some l =>
    obtain ⟨v2, w2, hfl2⟩ := filter_valid_locales_state avail st hA l
    have hv2 : v2 = [] := by
      unfold resolvedLocales at hLoc
      rw [hov] at hLoc
      simp [hfl2] at hLoc
      exact hLoc
    refine ⟨(filter_valid_timezones tzdb (pyDedup cfgT)).2 ++ wL ++
      resolvedTzWarnings tzdb (collect_marker_overrides markers).2.1 ++ w2, st, ?_⟩
    rw [hook_run_eq_core]
    unfold generate_tests_core
    rw [hfl]
    simp only [hD, hov, Bool.false_eq_true, if_false]
    rw [hfl2]
    rw [hTzEmpty, hv2]
    simp

/-- C7 amended: when the accumulated disable flag is true the hook registers
no parametrized runs, regardless of overrides present at other scopes, and
the unparametrized fixture cycle runs once with the sentinel pair; however
the global candidate lists are still validated before the disable flag is
consulted (the timezone validation warning below is part of the outcome),
so only override lists escape validation. -/
theorem disabled_skips_parametrization (tzdb avail : String → Bool)
    (cfgT cfgL : List String) (markers : List Marker) (cliMax : Option Int) (iniMax : Int)
    (st : String) (hA : avail st = true)
    (hD : (collect_marker_overrides markers).1 = true) :
    (∃ v wL, filter_valid_locales avail (pyDedup cfgL) st = some (v, wL, st) ∧
      pytest_generate_tests tzdb avail false true cfgT cfgL markers cliMax iniMax st =
        some { res := .notParametrized,
               warnings := (filter_valid_timezones tzdb (pyDedup cfgT)).2 ++ wL,
               locSt := st }) ∧
    (∀ (avail2 : String → Bool) (body : HostState → HostState) (out : BodyOutcome)
      (st2 : HostState), avail2 st2.loc = true →
      tzshiftCycle avail2 none body out st2 = .finished out (SYSTEM_TZ, SYSTEM_LOCALE) st2) := by
  constructor
  · obtain ⟨v, wL, hfl⟩ := filter_valid_locales_state avail st hA (pyDedup cfgL)
    refine ⟨v, wL, hfl, ?_⟩
    rw [hook_run_eq_core]
    unfold generate_tests_core
    rw [hfl]
    simp [hD]
  · intro avail2 body out st2 h2
    exact tzshift_cycle_default avail2 body out st2 h2

/-- C7 witness: a concrete disabled test with a timezone override present is
not parametrized, and the default fixture cycle yields the sentinel pair. -/
theorem disabled_skips_parametrization_witness :
    (∃ v wL, filter_valid_locales (fun s => s == "C") (pyDedup ["C"]) "C" = some (v, wL, "C") ∧
      pytest_generate_tests (fun z => z == "UTC") (fun s => s == "C") false true
        ["UTC"] ["C"]
        [{ timezones := some (MarkerVal.list ["UTC"]), locales := none, disable := none },
         { timezones := none, locales := none, disable := some true }] none 0 "C" =
        some { res := .notParametrized,
               warnings := (filter_valid_timezones (fun z => z == "UTC") (pyDedup ["UTC"])).2 ++ wL,
               locSt := "C" }) ∧
    (∀ (avail2 : String → Bool) (body : HostState → HostState) (out : BodyOutcome)
      (st2 : HostState), avail2 st2.loc = true →
      tzshiftCycle avail2 none body out st2 = .finished out (SYSTEM_TZ, SYSTEM_LOCALE) st2) :=
  disabled_skips_parametrization (fun z => z == "UTC") (fun s => s == "C") ["UTC"] ["C"]
    [{ timezones := some (MarkerVal.list ["UTC"]), locales := none, disable := none },
     { timezones := none, locales := none, disable := some true }] none 0 "C"
    (by decide) (by decide)

/-- C7 counterexample: the claim also asserts that no validation of any
candidate list is performed when the test is disabled, but the hook
validates the global lists first: with a bogus global timezone and a
disabling marker the unknown-timezone warning is still emitted. -/
theorem disabled_still_validates_globals :
    pytest_generate_tests (fun _ => false) (fun _ => true) false true ["Bad/Zone"] ["C"]
      [{ timezones := none, locales := none, disable := some true }] none 0 "C" =
      some { res := .notParametrized,
             warnings := ["tzshift: ignoring unknown time-zones: 'Bad/Zone'"],
             locSt := "C" } ∧
    (["tzshift: ignoring unknown time-zones: 'Bad/Zone'"] : List String) ≠ [] := by
  constructor
  · decide
  · decide

/-- C8: for an enabled test, when override resolution and validation leave a
dimension with zero surviving candidates, the hook raises the matching hard
usage error instead of generating zero runs or skipping. -/
theorem empty_dimension_usage_error (tzdb avail : String → Bool)
    (cfgT cfgL : List String) (markers : List Marker) (cliMax : Option Int) (iniMax : Int)
    (st : String) (hA : avail st = true)
    (hD : (collect_marker_overrides markers).1 = false) :
    (resolvedTimezones tzdb cfgT (collect_marker_overrides markers).2.1 = [] →
      ∃ w st2, pytest_generate_tests tzdb avail false true cfgT cfgL markers cliMax iniMax st =
        some { res := .usageError "tzshift: no valid time-zones to test with",
               warnings := w, locSt := st2 }) ∧
    (resolvedTimezones tzdb cfgT (collect_marker_overrides markers).2.1 ≠ [] →
      resolvedLocales avail cfgL (collect_marker_overrides markers).2.2 st = some [] →
      ∃ w st2, pytest_generate_tests tzdb avail false true cfgT cfgL markers cliMax iniMax st =
        some { res := .usageError "tzshift: no valid locales to test with",
               warnings := w, locSt := st2 }) := by
  constructor
  · intro hTz
    exact core_empty_tz tzdb avail cfgT cfgL markers cliMax iniMax st hA hD hTz
  · intro hTz hLoc
    exact core_empty_loc tzdb avail cfgT cfgL markers cliMax iniMax st hA hD hTz hLoc

/-- C8 witness: with no valid global timezone the hook raises the timezone
usage error; with valid timezones but an all-invalid locale override it
raises the locale usage error. -/
theorem empty_dimension_usage_error_witness :
    (∃ w st2, pytest_generate_tests (fun _ => false) (fun s => s == "C") false true
      ["Bad/Zone"] ["C"] [] none 0 "C" =
      some { res := .usageError "tzshift: no valid time-zones to test with",
             warnings := w, locSt := st2 }) ∧
    (∃ w st2, pytest_generate_tests (fun z => z == "UTC") (fun s => s == "C") false true
      ["UTC"] ["C"]
      [{ timezones := none, locales := some (MarkerVal.list ["xx_YY"]), disable := none }]
      none 0 "C" =
      some { res := .usageError "tzshift: no valid locales to test with",
             warnings := w, locSt := st2 }) :=
  ⟨(empty_dimension_usage_error (fun _ => false) (fun s => s == "C") ["Bad/Zone"] ["C"]
      [] none 0 "C" (by decide) (by decide)).1 (by decide),
   (empty_dimension_usage_error (fun z => z == "UTC") (fun s => s == "C") ["UTC"] ["C"]
      [{ timezones := none, locales := some (MarkerVal.list ["xx_YY"]), disable := none }]
      none 0 "C" (by decide) (by decide)).2 (by decide) (by decide)⟩

/-- C10: a marker explicitly passing timezones None (or locales None) counts
as a present field, is converted to the empty override list by the as-list
helper, replaces the global candidate list and so triggers the fatal
empty-dimension usage error, rather than meaning no override here. -/
theorem explicit_none_override_usage_error (tzdb avail : String → Bool)
    (cfgT cfgL : List String) (cliMax : Option Int) (iniMax : Int) (st : String)
    (hA : avail st = true)
    (hT : (filter_valid_timezones tzdb (pyDedup cfgT)).1 ≠ []) :
    as_list MarkerVal.none = [] ∧
    (∃ w st2, pytest_generate_tests tzdb avail false true cfgT cfgL
      [{ timezones := some MarkerVal.none, locales := none, disable := none }]
      cliMax iniMax st =
      some { res := .usageError "tzshift: no valid time-zones to test with",
             warnings := w, locSt := st2 }) ∧
    (∃ w st2, pytest_generate_tests tzdb avail false true cfgT cfgL
      [{ timezones := none, locales := some MarkerVal.none, disable := none }]
      cliMax iniMax st =
      some { res := .usageError "tzshift: no valid locales to test with",
             warnings := w, locSt := st2 }) := by
  refine ⟨rfl, ?_, ?_⟩
  · exact core_empty_tz tzdb avail cfgT cfgL
      [{ timezones := some MarkerVal.none, locales := none, disable := none }]
      cliMax iniMax st hA rfl rfl
  · exact core_empty_loc tzdb avail cfgT cfgL
      [{ timezones := none, locales := some MarkerVal.none, disable := none }]
      cliMax iniMax st hA rfl hT rfl

/-- C10 witness: both explicit-None override shapes raise their usage error
on a concrete configuration. -/
theorem explicit_none_override_usage_error_witness :
    as_list MarkerVal.none = [] ∧
    (∃ w st2, pytest_generate_tests (fun z => z == "UTC") (fun s => s == "C") false true
      ["UTC"] ["C"]
      [{ timezones := some MarkerVal.none, locales := none, disable := none }]
      none 0 "C" =
      some { res := .usageError "tzshift: no valid time-zones to test with",
             warnings := w, locSt := st2 }) ∧
    (∃ w st2, pytest_generate_tests (fun z => z == "UTC") (fun s => s == "C") false true
      ["UTC"] ["C"]
      [{ timezones := none, locales := some MarkerVal.none, disable := none }]
      none 0 "C" =
      some { res := .usageError "tzshift: no valid locales to test with",
             warnings := w, locSt := st2 }) :=
  explicit_none_override_usage_error (fun z => z == "UTC") (fun s => s == "C")
    ["UTC"] ["C"] none 0 "C" (by decide) (by decide)

/-- C5 counterexample: with an inner scope passing disable False and an
outer scope passing disable True, the accumulated disable flag is true: the
outer value takes effect even though the inner scope supplied a value for
the field, contradicting the claim that the innermost non-absent value wins
for the disable field as well. -/
theorem inner_disable_false_does_not_shadow :
    (collect_marker_overrides
      [{ timezones := none, locales := none, disable := some false },
       { timezones := none, locales := none, disable := some true }]).1 ≠ false := by
  decide

/-- C5 amended: walking the markers innermost first, the innermost present
value wins for the timezones and the locales fields (outer values for a
field already set are ignored, and an inner field set at any scope wins over
every outer scope), while the disable flag is latched by the first truthy
disable only: the flag is true exactly when some scope passes a truthy
disable, so an inner disable False does not shadow an outer disable True. -/
theorem collect_overrides_first_match :
    (∀ ms : List Marker, collect_marker_overrides ms =
      ((ms.any fun m => m.disable.getD false),
       firstPresent (fun m => m.timezones) ms,
       firstPresent (fun m => m.locales) ms)) ∧
    (∀ (m : Marker) (rest : List Marker) (v : MarkerVal), m.timezones = some v →
      (collect_marker_overrides (m :: rest)).2.1 = some (as_list v)) ∧
    (∀ (m : Marker) (rest : List Marker) (v : MarkerVal), m.locales = some v →
      (collect_marker_overrides (m :: rest)).2.2 = some (as_list v)) := by
  refine ⟨collect_marker_overrides_eq, ?_, ?_⟩
  · intro m rest v hv
    rw [collect_marker_overrides_eq]
    show firstPresent (fun m => m.timezones) (m :: rest) = some (as_list v)
    rw [firstPresent_cons, hv]
  · intro m rest v hv
    rw [collect_marker_overrides_eq]
    show firstPresent (fun m => m.locales) (m :: rest) = some (as_list v)
    rw [firstPresent_cons, hv]

/-- C5 witness: a function-level timezones override wins over a module-level
one, and the latched disable of the characterization holds on a concrete
list. -/
theorem collect_overrides_first_match_witness :
    (collect_marker_overrides
      [{ timezones := some (MarkerVal.list ["UTC"]), locales := none, disable := none },
       { timezones := some (MarkerVal.list ["Asia/Tokyo"]), locales := none,
         disable := none }]).2.1 = some (as_list (MarkerVal.list ["UTC"])) :=
  collect_overrides_first_match.2.1
    { timezones := some (MarkerVal.list ["UTC"]), locales := none, disable := none }
    [{ timezones := some (MarkerVal.list ["Asia/Tokyo"]), locales := none, disable := none }]
    (MarkerVal.list ["UTC"]) rfl

/-- C6: with cap 0 the generated run list is the de-duplicated Cartesian
product in timezone-major, locale-minor order: for duplicate-free validated
lists its length is the product of the lengths and its identifiers are
pairwise distinct; concretely, timezones UTC, UTC, SYSTEM with locale C
yield exactly the two runs UTC with C then SYSTEM with C. -/
theorem generate_full_product :
    (∀ T L : List String, T.Nodup → L.Nodup → T ≠ [] → L ≠ [] →
      (generate T L 0).combos.length = T.length * L.length ∧
      (generate T L 0).ids.Nodup) ∧
    (generate ["UTC", "UTC", "SYSTEM"] ["C"] 0).combos = [("UTC", "C"), ("SYSTEM", "C")] ∧
    (generate ["UTC", "UTC", "SYSTEM"] ["C"] 0).ids = ["0|UTC|C", "1|sys|C"] := by
  refine ⟨?_, by decide, by decide⟩
  intro T L hT hL _ _
  have hprod : pyDedup (pyProduct T L) = pyProduct T L :=
    pyDedup_eq_self _ (pyProduct_nodup hT hL)
  constructor
  · show (applyCap (pyDedup (pyProduct T L)) (if (0 : Nat) = 0 then none else some 0)).1.length
      = T.length * L.length
    rw [if_pos rfl]
    show (pyDedup (pyProduct T L)).length = T.length * L.length
    rw [hprod, length_pyProduct]
  · show (mkIds (applyCap (pyDedup (pyProduct T L))
      (if (0 : Nat) = 0 then none else some 0)).1).Nodup
    exact mkIds_nodup _

/-- C6 witness: the universal part evaluated on two concrete duplicate-free
validated lists. -/
theorem generate_full_product_witness :
    (generate ["UTC", "SYSTEM"] ["C", "de_DE.UTF-8"] 0).combos.length = 2 * 2 ∧
    (generate ["UTC", "SYSTEM"] ["C", "de_DE.UTF-8"] 0).ids.Nodup :=
  generate_full_product.1 ["UTC", "SYSTEM"] ["C", "de_DE.UTF-8"]
    (by decide) (by decide) (by decide) (by decide)

/-- C4 counterexample: with an 11-element final list the index field width
is 2 and the first identifier is space padded, so it differs from the
zero-padded identifier the claim prescribes. -/
theorem mkIds_not_zero_padded :
    (mkIds [("A", "C"), ("B", "C"), ("D", "C"), ("E", "C"), ("F", "C"), ("G", "C"),
      ("H", "C"), ("I", "C"), ("J", "C"), ("K", "C"), ("M", "C")]).head? =
      some " 0|A|C" ∧ (" 0|A|C" : String) ≠ "00|A|C" := by
  constructor
  · decide
  · decide

/-- C4 amended: each identifier joins the run index rendered in decimal and
right-aligned with spaces (not zeros) to the width of len of the final list
minus 1 (at least 1), the pretty-printed timezone and the pretty-printed
locale, with the bar separator; pretty renders any sentinel spelling as sys
and every other value verbatim; identifiers are unique within the list and
stable, being a function of the final list alone. -/
theorem mkIds_space_padded_unique :
    (∀ combos : List (String × String), (mkIds combos).Nodup) ∧
    (∀ (combos : List (String × String)) (i : Nat) (tz loc : String),
      combos[i]? = some (tz, loc) →
      (mkIds combos)[i]? = some (String.mk
        (List.replicate (idWidth combos - (pyStrData i).length) ' ' ++ pyStrData i ++
          '|' :: (pretty tz).data ++ '|' :: (pretty loc).data))) ∧
    (∀ v, is_system_sentinel (some v) SYSTEM_TZ = true → pretty v = "sys") ∧
    (∀ v, is_system_sentinel (some v) SYSTEM_TZ = false → pretty v = v) := by
  refine ⟨mkIds_nodup, ?_, ?_, ?_⟩
  · intro combos i tz loc h
    have hi : i < combos.length := by
      by_contra hcon
      push_neg at hcon
      rw [List.getElem?_eq_none hcon] at h
      exact Option.noConfusion h
    have hpair : combos[i] = (tz, loc) := by
      rw [List.getElem?_eq_getElem hi] at h
      exact Option.some.inj h
    have hlen : i < combos.enum.length := by
      rw [List.enum_length]
      exact hi
    have he : combos.enum[i]? = some (i, (tz, loc)) := by
      rw [List.getElem?_eq_getElem hlen, List.getElem_enum, hpair]
    unfold mkIds
    rw [List.getElem?_map, he]
    simp [mkId, padChars]
  · intro v hv
    simp [pretty, hv]
  · intro v hv
    have hv2 : is_system_sentinel (some v) SYSTEM_LOCALE = false := hv
    simp [pretty, hv, hv2]

/-- C4 witness: the structural description evaluated at index 1 of a
concrete two-element list, whose second timezone is the sentinel. -/
theorem mkIds_space_padded_unique_witness :
    (mkIds [("UTC", "C"), ("SYSTEM", "C")]).Nodup ∧
    (mkIds [("UTC", "C"), ("SYSTEM", "C")])[1]? = some (String.mk
      (List.replicate (idWidth [("UTC", "C"), ("SYSTEM", "C")] - (pyStrData 1).length) ' ' ++
        pyStrData 1 ++ '|' :: (pretty "SYSTEM").data ++ '|' :: (pretty "C").data)) :=
  ⟨mkIds_space_padded_unique.1 [("UTC", "C"), ("SYSTEM", "C")],
   mkIds_space_padded_unique.2.1 [("UTC", "C"), ("SYSTEM", "C")] 1 "SYSTEM" "C" (by decide)⟩

/-- C3 counterexample: with 11 validated combinations and cap 10 the capped
identifiers differ from the first 10 uncapped identifiers, because the index
field width is computed from the capped length (1 digit) rather than from
the uncapped total (2 digits); the claim that the elements, identifiers and
pairs alike, match the first c elements of the cap 0 list fails. -/
theorem generate_truncation_ids_counterexample :
    (generate ["A", "B", "D", "E", "F", "G", "H", "I", "J", "K", "M"] ["C"] 10).ids ≠
      ((generate ["A", "B", "D", "E", "F", "G", "H", "I", "J", "K", "M"] ["C"] 0).ids).take 10
    := by
  decide

/-- C3 amended: for cap c with 0 < c strictly below the de-duplicated total,
generation with cap c yields exactly c run descriptors whose pairs equal the
first c pairs of the cap 0 list, and emits exactly one truncation warning
naming c and the total; the identifiers also equal the first c cap 0
identifiers whenever c minus 1 and the total minus 1 have the same decimal
width, the width being recomputed from the capped length. -/
theorem generate_truncation (T L : List String) (c : Nat)
    (hc0 : 0 < c) (hlt : c < (pyDedup (pyProduct T L)).length) :
    (generate T L c).combos.length = c ∧
    (generate T L c).combos = (generate T L 0).combos.take c ∧
    (generate T L c).warns = [truncMsg c (pyDedup (pyProduct T L)).length] ∧
    ((pyStrData (c - 1)).length =
        (pyStrData ((pyDedup (pyProduct T L)).length - 1)).length →
      (generate T L c).ids = (generate T L 0).ids.take c) := by
  have hc : (if c = 0 then none else some c) = some c := by
    rw [if_neg (by omega)]
  have happ : applyCap (pyDedup (pyProduct T L)) (some c) =
      ((pyDedup (pyProduct T L)).take c,
        [truncMsg c (pyDedup (pyProduct T L)).length]) := by
    show (if (pyDedup (pyProduct T L)).length > c then
        ((pyDedup (pyProduct T L)).take c, [truncMsg c (pyDedup (pyProduct T L)).length])
      else (pyDedup (pyProduct T L), [])) =
      ((pyDedup (pyProduct T L)).take c, [truncMsg c (pyDedup (pyProduct T L)).length])
    rw [if_pos hlt]
  have hgenc : generate T L c =
      { combos := (pyDedup (pyProduct T L)).take c,
        ids := mkIds ((pyDedup (pyProduct T L)).take c),
        warns := [truncMsg c (pyDedup (pyProduct T L)).length] } := by
    unfold generate
    rw [hc]
    show ({ combos := (applyCap (pyDedup (pyProduct T L)) (some c)).1,
            ids := mkIds (applyCap (pyDedup (pyProduct T L)) (some c)).1,
            warns := (applyCap (pyDedup (pyProduct T L)) (some c)).2 } : GenOut) =
      { combos := (pyDedup (pyProduct T L)).take c,
        ids := mkIds ((pyDedup (pyProduct T L)).take c),
        warns := [truncMsg c (pyDedup (pyProduct T L)).length] }
    rw [happ]
  have hgen0 : generate T L 0 =
      { combos := pyDedup (pyProduct T L),
        ids := mkIds (pyDedup (pyProduct T L)), warns := [] } := by
    unfold generate
    rw [if_pos rfl]
    rfl
  refine ⟨?_, ?_, ?_, ?_⟩
  · rw [hgenc]
    show ((pyDedup (pyProduct T L)).take c).length = c
    rw [List.length_take]
    omega
  · rw [hgenc, hgen0]
  · rw [hgenc]
  · intro hw
    rw [hgenc, hgen0]
    show mkIds ((pyDedup (pyProduct T L)).take c) = (mkIds (pyDedup (pyProduct T L))).take c
    apply mkIds_take
    unfold idWidth
    rw [List.length_take]
    have h1 : min c (pyDedup (pyProduct T L)).length = c := by omega
    rw [h1]
    have hA : pyStrI ((c : Int) - 1) = pyStr (c - 1) := by
      unfold pyStrI
      rw [if_neg (by omega : ¬ ((c : Int) - 1 < 0))]
      have hnat : ((c : Int) - 1).toNat = c - 1 := by omega
      rw [hnat]
    have hB : pyStrI (((pyDedup (pyProduct T L)).length : Int) - 1) =
        pyStr ((pyDedup (pyProduct T L)).length - 1) := by
      unfold pyStrI
      rw [if_neg (by omega : ¬ (((pyDedup (pyProduct T L)).length : Int) - 1 < 0))]
      have hnat : (((pyDedup (pyProduct T L)).length : Int) - 1).toNat =
          (pyDedup (pyProduct T L)).length - 1 := by omega
      rw [hnat]
    rw [hA, hB]
    show max 1 (pyStrData (c - 1)).length =
      max 1 (pyStrData ((pyDedup (pyProduct T L)).length - 1)).length
    rw [hw]

/-- C3 witness: the amended statement evaluated at cap 3 over a 4-element
product, where the widths agree and the identifiers match as well. -/
theorem generate_truncation_witness :
    (generate ["UTC", "Europe/London"] ["C", "de_DE.UTF-8"] 3).combos.length = 3 ∧
    (generate ["UTC", "Europe/London"] ["C", "de_DE.UTF-8"] 3).combos =
      (generate ["UTC", "Europe/London"] ["C", "de_DE.UTF-8"] 0).combos.take 3 ∧
    (generate ["UTC", "Europe/London"] ["C", "de_DE.UTF-8"] 3).warns =
      [truncMsg 3 (pyDedup (pyProduct ["UTC", "Europe/London"] ["C", "de_DE.UTF-8"])).length] ∧
    ((pyStrData (3 - 1)).length = (pyStrData
        ((pyDedup (pyProduct ["UTC", "Europe/London"] ["C", "de_DE.UTF-8"])).length - 1)).length →
      (generate ["UTC", "Europe/London"] ["C", "de_DE.UTF-8"] 3).ids =
        (generate ["UTC", "Europe/London"] ["C", "de_DE.UTF-8"] 0).ids.take 3) :=
  generate_truncation ["UTC", "Europe/London"] ["C", "de_DE.UTF-8"] 3 (by decide) (by decide)
